import Mathlib

/-!
Verification development for the mediaServer playback delivery and
synchronized watch-session engine.

The definitions below are a shallow embedding of the Python sources
src/playback/service.py and src/app.py.  Python strings are embedded as
Lean String values; Python str operations (startswith, endswith, strip,
splitlines, split) are re-implemented on character lists so that every
definition is executable and kernel-reducible.  Wall-clock instants and
positions (seconds) are embedded as rationals; datetimes are seconds since
an arbitrary epoch.  Side effects (filesystem writes, the ffmpeg
subprocess, the SQL database, socket emits) are made explicit: outcomes of
external calls are inputs, and database commits are modelled as functional
updates of record lists.
-/

namespace MediaServer

/-! ### Python string primitives -/

/-- Splits a character list at every occurrence of the character c.
Mirrors the component decomposition used by Python path splitting. -/
def splitOnChar (c : Char) : List Char → List (List Char)
| [] => [[]]
| x :: xs =>
  match splitOnChar c xs with
  | [] => [[]]
  | h :: t => if x = c then [] :: h :: t else (x :: h) :: t

/-- Components of a string split at the character c, as strings. -/
def splitStr (c : Char) (s : String) : List String :=
  (splitOnChar c s.toList).map String.mk

/-- Embedding of the Python str.startswith method. -/
def startswith (pre s : String) : Bool :=
  List.isPrefixOf pre.toList s.toList

/-- Embedding of the Python str.endswith method. -/
def endswith (suf s : String) : Bool :=
  List.isSuffixOf suf.toList s.toList

/-- Characters stripped by the Python str.strip method (ASCII whitespace). -/
def isPySpace (c : Char) : Bool :=
  c = ' ' ∨ c = '\t' ∨ c = '\n' ∨ c = '\r' ∨ c = '\x0b' ∨ c = '\x0c'

/-- Embedding of the Python str.strip method with no arguments. -/
def pyStrip (s : String) : String :=
  String.mk (((s.toList.dropWhile isPySpace).reverse.dropWhile isPySpace).reverse)

/-- Embedding of the Python str.lstrip method applied with the path
separator, as in relative_path handling of resolve_output_path. -/
def lstripSlash (s : String) : String :=
  String.mk (s.toList.dropWhile (fun c => c = '/'))

/-- Line-break characters recognised by the Python str.splitlines method
(restricted to the one-byte and unicode separators). -/
def isLineBreak (c : Char) : Bool :=
  c = '\n' ∨ c = '\r' ∨ c = '\x0b' ∨ c = '\x0c' ∨ c = '\x1c' ∨ c = '\x1d' ∨
  c = '\x1e' ∨ c = '\x85' ∨ c = '\u2028' ∨ c = '\u2029'

/-- Worker for splitlines: acc holds the current line reversed. -/
def splitlinesAux (acc : List Char) : List Char → List String
| [] => if acc.isEmpty then [] else [String.mk acc.reverse]
| '\r' :: '\n' :: rest => String.mk acc.reverse :: splitlinesAux [] rest
| c :: rest =>
  if isLineBreak c then String.mk acc.reverse :: splitlinesAux [] rest
  else splitlinesAux (c :: acc) rest

/-- Embedding of the Python str.splitlines method. -/
def splitlines (s : String) : List String :=
  splitlinesAux [] s.toList

/-- Joins path components with the separator, the inverse of splitStr. -/
def joinSlash : List String → String
| [] => ""
| [x] => x
| x :: y :: t => x ++ "/" ++ joinSlash (y :: t)

/-! ### Path arithmetic: os.path.normpath and pathlib resolution

The service manipulates POSIX paths.  normpath below follows the CPython
posixpath.normpath algorithm.  Path.resolve is embedded for a filesystem
without symbolic links: it collapses empty, dot and dot-dot components of
an absolute path, clamping dot-dot at the root, which is exactly the
lexical behaviour of pathlib resolution on non-existing paths. -/

/-- Component scan of posixpath.normpath: new_comps is kept reversed.
hasInitialSlashes records whether the path was absolute. -/
def normpathComps (hasInitialSlashes : Bool) : List String → List String → List String
| acc, [] => acc.reverse
| acc, c :: rest =>
  if c = "" ∨ c = "." then normpathComps hasInitialSlashes acc rest
  else if c ≠ ".." ∨ (¬ hasInitialSlashes ∧ acc = []) ∨ acc.headD "" = ".." then
    normpathComps hasInitialSlashes (c :: acc) rest
  else
    match acc with
    | [] => normpathComps hasInitialSlashes [] rest
    | _ :: tl => normpathComps hasInitialSlashes tl rest

/-- Embedding of posixpath.normpath from CPython. -/
def normpath (p : String) : String :=
  if p = "" then "."
  else
    let initialSlashes : Nat :=
      if startswith "/" p then
        if startswith "//" p ∧ ¬ startswith "///" p then 2 else 1
      else 0
    let comps := normpathComps (initialSlashes ≠ 0) [] (splitStr '/' p)
    let joined := String.mk (List.replicate initialSlashes '/') ++ joinSlash comps
    if joined = "" then "." else joined

/-- Component scan of absolute-path resolution: empty and dot components
are dropped, dot-dot pops the previous component and is clamped at the
root.  The accumulator is kept reversed. -/
def resolveComps : List String → List String → List String
| acc, [] => acc.reverse
| acc, c :: rest =>
  if c = "" ∨ c = "." then resolveComps acc rest
  else if c = ".." then resolveComps (acc.drop 1) rest
  else resolveComps (c :: acc) rest

/-- Embedding of pathlib Path.resolve for an absolute path on a
filesystem without symbolic links. -/
def resolveAbs (p : String) : String :=
  "/" ++ joinSlash (resolveComps [] (splitStr '/' p))

/-- The resolved session output directory, (output_root / str(id)).resolve(). -/
def sessionBase (output_root : String) (playback_session_id : Nat) : String :=
  resolveAbs (output_root ++ "/" ++ toString playback_session_id)

/-- Embedding of PlaybackService.resolve_output_path: normalizes the
requested relative path, strips leading separators, joins it onto the
resolved session directory, resolves, and accepts the candidate exactly
when its string starts with the string of the base directory. -/
def resolve_output_path (output_root : String) (playback_session_id : Nat)
    (relative_path : String) : Option String :=
  let clean_relative := lstripSlash (normpath relative_path)
  let base := sessionBase output_root playback_session_id
  let candidate := resolveAbs (base ++ "/" ++ clean_relative)
  if startswith base candidate then some candidate else none

/-- A path is strictly inside a directory when it extends it by a
separator and a non-empty remainder. -/
def strictlyInside (base p : String) : Prop :=
  startswith (base ++ "/") p = true ∧ p ≠ base ++ "/"

instance (base p : String) : Decidable (strictlyInside base p) := by
  unfold strictlyInside; infer_instance

/-! ### Media files, profiles and the playback mode selector -/

/-- Embedding of the MediaFile columns consumed by the playback service.
Nullable columns are Options; height is the nullable Integer column. -/
structure MediaFile where
  id : Nat
  file_path : String
  container : Option String
  video_codec : Option String
  height : Option Int
deriving DecidableEq

/-- Embedding of the PlaybackProfile dataclass. -/
structure PlaybackProfile where
  name : String
  max_height : Int
  video_bitrate : String
  audio_bitrate : String
deriving DecidableEq

/-- Embedding of the BASELINE_720P profile constant. -/
def BASELINE_720P : PlaybackProfile :=
  { name := "hls-720p", max_height := 720,
    video_bitrate := "2800k", audio_bitrate := "128k" }

/-- Embedding of PlaybackService.choose_mode.  The Python guard
media_file.height and media_file.height <= max_height is truthiness
followed by comparison: None and 0 are falsy, so both fall through to
transcode. -/
def choose_mode (m : MediaFile) : String :=
  if endswith ".m3u8" m.file_path then "direct-play"
  else
    match m.height with
    | some h =>
      if h ≠ 0 ∧ h ≤ BASELINE_720P.max_height then
        if (m.container = some "mp4" ∨ m.container = some "mov") ∧
            (m.video_codec = some "h264" ∨ m.video_codec = some "hevc") then
          "direct-play"
        else "transcode"
      else "transcode"
    | none => "transcode"

/-- Embedding of PlaybackService.choose_profile. -/
def choose_profile (_m : MediaFile) : PlaybackProfile := BASELINE_720P


/-! ### Asset token service

sign_token and verify_token wrap an itsdangerous URLSafeTimedSerializer.
The serializer is embedded abstractly but faithfully: dumps attaches the
signing wall-clock time and a message authentication code over the
serialized payload and that time; loads recomputes the code, rejects on
mismatch (BadSignature) and rejects when the elapsed age exceeds max_age
(SignatureExpired).  The code function and the sha256 hex digest are kept
as parameters of the service: every theorem below holds for all of them,
in particular for the real HMAC and sha256. -/

/-- Embedding of the payload dict built by sign_token. -/
structure TokenPayload where
  playback_session_id : Nat
  path : String
  digest : String
  issued_at : Nat
deriving DecidableEq

/-- Embedding of the serialized signed token: payload, the timestamp the
serializer attached at signing time, and the signature bytes. -/
structure SignedToken where
  payload : TokenPayload
  timestamp : Nat
  sig : Nat
deriving DecidableEq

/-- The token service: mac abstracts the keyed signature the serializer
computes from the secret and salt; digestFn abstracts hashlib sha256
hexdigest. -/
structure TokenService where
  mac : TokenPayload → Nat → Nat
  digestFn : String → String

/-- Embedding of PlaybackService.sign_token at wall-clock second now. -/
def sign_token (svc : TokenService) (now : Nat) (playback_session_id : Nat)
    (path : String) : SignedToken :=
  let payload : TokenPayload :=
    { playback_session_id := playback_session_id, path := path,
      digest := svc.digestFn path, issued_at := now }
  { payload := payload, timestamp := now, sig := svc.mac payload now }

/-- Embedding of serializer.loads with max_age: returns the payload when
the signature matches and the elapsed age is at most max_age, and fails
(BadSignature or SignatureExpired, both caught by verify_token) otherwise. -/
def serializer_loads (svc : TokenService) (now : Nat) (token : SignedToken)
    (max_age : Nat) : Option TokenPayload :=
  if token.sig = svc.mac token.payload token.timestamp then
    if now - token.timestamp ≤ max_age then some token.payload else none
  else none

/-- Embedding of PlaybackService.verify_token. -/
def verify_token (svc : TokenService) (now : Nat) (token : SignedToken)
    (max_age_seconds : Nat) (expected_playback_session_id : Nat)
    (path : String) : Bool :=
  match serializer_loads svc now token max_age_seconds with
  | none => false
  | some payload =>
    payload.playback_session_id = expected_playback_session_id ∧
    payload.path = path ∧
    payload.digest = svc.digestFn path

/-! ### Artifact preparer

prepare_session touches the filesystem and spawns ffmpeg.  The embedding
takes the outcomes of those external effects as inputs (does the
direct-play source still exist; does ffmpeg exit zero) and records which
effects the control flow performed. -/

/-- External-world inputs of prepare_session. -/
structure PrepareEnv where
  output_root : String
  sourceExists : Bool
  ffmpegSucceeds : Bool

/-- Embedding of the dict returned by prepare_session. -/
structure PrepareDict where
  mode : String
  profile : String
  master_playlist : String
deriving DecidableEq

/-- Effects performed and value produced by one prepare_session call. -/
structure PrepareOutcome where
  transcoderInvoked : Bool
  masterSynthesized : Bool
  sourceCopied : Bool
  renditionPlaylist : Option String
  result : Except String PrepareDict

/-- Embedding of PlaybackService.prepare_session.  The first branch
handles a direct-play source that is already a segmented playlist by
copying it; every other media file, whatever its mode, goes through
_generate_hls and _write_master_playlist. -/
def prepare_session (env : PrepareEnv) (m : MediaFile)
    (playback_session_id : Nat) : PrepareOutcome :=
  let mode := choose_mode m
  let profile := choose_profile m
  let session_dir := env.output_root ++ "/" ++ toString playback_session_id
  if mode = "direct-play" ∧ endswith ".m3u8" m.file_path then
    if env.sourceExists then
      { transcoderInvoked := false, masterSynthesized := false,
        sourceCopied := true, renditionPlaylist := none,
        result := Except.ok
          { mode := mode, profile := profile.name,
            master_playlist := session_dir ++ "/master.m3u8" } }
    else
      { transcoderInvoked := false, masterSynthesized := false,
        sourceCopied := false, renditionPlaylist := none,
        result := Except.error ("Media source does not exist: " ++ m.file_path) }
  else
    let profile_dir := session_dir ++ "/" ++ profile.name
    if env.ffmpegSucceeds then
      { transcoderInvoked := true, masterSynthesized := true,
        sourceCopied := false,
        renditionPlaylist := some (profile_dir ++ "/index.m3u8"),
        result := Except.ok
          { mode := mode, profile := profile.name,
            master_playlist := session_dir ++ "/master.m3u8" } }
    else
      { transcoderInvoked := true, masterSynthesized := false,
        sourceCopied := false, renditionPlaylist := none,
        result := Except.error "ffmpeg failed" }

/-! ### Watch sessions: state, extrapolating read, and command handler

Wall-clock instants and positions are rationals (seconds).  The builtin
Python round function rounds to the nearest multiple with ties to even;
round(x, 3) is embedded exactly on the rationals. -/

/-- Floor of a rational as an integer, computed from the reduced fraction. -/
def ratFloor (x : ℚ) : ℤ := Int.fdiv x.num (x.den : ℤ)

/-- Nearest integer with ties to even, the rounding of the Python builtin
round function. -/
def roundHalfEven (x : ℚ) : ℤ :=
  let f := ratFloor x
  let frac := x - (f : ℚ)
  if frac < 1 / 2 then f
  else if 1 / 2 < frac then f + 1
  else if f % 2 = 0 then f else f + 1

/-- Embedding of round(x, 3), rounding to a whole number of milliseconds. -/
def round3 (x : ℚ) : ℚ := (roundHalfEven (x * 1000) : ℚ) / 1000

/-- Embedding of the WatchSession columns the state machine touches. -/
structure WatchSessionState where
  id : Nat
  join_code : String
  media_file_id : Nat
  is_playing : Bool
  current_position_seconds : ℚ
  last_state_updated_at : ℚ
deriving DecidableEq

/-- Embedding of a WatchSessionParticipant row. -/
structure Participant where
  watch_session_id : Nat
  user_id : Nat
  joined_at : ℚ
  last_seen_at : ℚ
deriving DecidableEq

/-- Embedding of the json payload built by _watch_session_state_payload. -/
structure StatePayload where
  watch_session_id : Nat
  join_code : String
  media_id : Nat
  is_playing : Bool
  position_seconds : ℚ
  server_time : ℚ
deriving DecidableEq

/-- Modelled from the spec: the invariant of section 3 names the true
position of a watch session at a later instant, stored_position plus
elapsed time when playing and exactly stored_position when paused. -/
def authoritativePosition (now : ℚ) (ws : WatchSessionState) : ℚ :=
  if ws.is_playing then
    ws.current_position_seconds + (now - ws.last_state_updated_at)
  else ws.current_position_seconds

/-- Embedding of _watch_session_state_payload at wall-clock instant now. -/
def _watch_session_state_payload (now : ℚ) (ws : WatchSessionState) : StatePayload :=
  let current_position := ws.current_position_seconds +
    (if ws.is_playing then max 0 (now - ws.last_state_updated_at) else 0)
  { watch_session_id := ws.id, join_code := ws.join_code,
    media_id := ws.media_file_id, is_playing := ws.is_playing,
    position_seconds := round3 current_position, server_time := now }

/-- Embedding of _update_watch_session_state: extrapolate, override with
the clamped requested position when one was supplied, apply the action to
the play flag, store the position and reset the timestamp. -/
def _update_watch_session_state (now : ℚ) (ws : WatchSessionState)
    (action : String) (requested_position : Option ℚ) : WatchSessionState :=
  let extrapolated := ws.current_position_seconds +
    (if ws.is_playing then max 0 (now - ws.last_state_updated_at) else 0)
  let current_position :=
    match requested_position with
    | some r => max 0 r
    | none => extrapolated
  let is_playing :=
    if action = "play" then true
    else if action = "pause" then false
    else ws.is_playing
  { ws with is_playing := is_playing,
            current_position_seconds := current_position,
            last_state_updated_at := now }

/-! ### The real-time command handler _handle_playback_control

The database is embedded as lists of rows; query .first() is List.find?,
and a commit writes back exactly the objects the handler mutated, by
replacing the first matching row. -/

/-- The server-side state the handler reads and writes. -/
structure ServerState where
  participants : List Participant
  sessions : List WatchSessionState
deriving DecidableEq

/-- Reply of the handler: an error emit, or success followed by a
broadcast of the authoritative state to the watch-session room. -/
inductive HandlerReply where
| err (msg : String)
| okBroadcast
deriving DecidableEq

/-- Embedding of the participant lookup filtering on session and user. -/
def findParticipant (l : List Participant) (wid user : Nat) : Option Participant :=
  l.find? (fun p => p.watch_session_id = wid ∧ p.user_id = user)

/-- Embedding of the watch-session lookup by id. -/
def findSession (l : List WatchSessionState) (wid : Nat) : Option WatchSessionState :=
  l.find? (fun w => w.id = wid)

/-- Commit of the mutated participant row: the first matching row gets
its last_seen_at refreshed. -/
def touchParticipant (wid user : Nat) (now : ℚ) : List Participant → List Participant
| [] => []
| p :: rest =>
  if p.watch_session_id = wid ∧ p.user_id = user then
    { p with last_seen_at := now } :: rest
  else p :: touchParticipant wid user now rest

/-- Commit of the mutated watch-session row: the first row with the given
id is replaced. -/
def writeSession (wid : Nat) (ws : WatchSessionState) :
    List WatchSessionState → List WatchSessionState
| [] => []
| w :: rest =>
  if w.id = wid then ws :: rest else w :: writeSession wid ws rest

/-- Embedding of _auth_required_socket: bool(session.get(user_id)), so a
missing user and the falsy user id 0 both fail. -/
def _auth_required_socket (currentUser : Option Nat) : Bool :=
  match currentUser with
  | some u => u ≠ 0
  | none => false

/-- Embedding of _handle_playback_control.  The truthiness test on
watch_session_id rejects both a missing and a zero id.  For the play,
pause and seek actions the state machine update runs directly; for
state_sync with a reported position the handler compares the report
against its own payload position and applies a correcting seek only when
they differ by more than one second. -/
def _handle_playback_control (now : ℚ) (st : ServerState)
    (currentUser : Option Nat) (action : String)
    (watch_session_id : Option Nat) (requested_position : Option ℚ) :
    ServerState × HandlerReply :=
  if ¬ _auth_required_socket currentUser then
    (st, HandlerReply.err "authentication required")
  else
    match watch_session_id with
    | none => (st, HandlerReply.err "watch_session_id is required")
    | some wid =>
      if wid = 0 then (st, HandlerReply.err "watch_session_id is required")
      else
        let user := currentUser.getD 0
        match findParticipant st.participants wid user with
        | none => (st, HandlerReply.err "join session before controlling playback")
        | some _ =>
          match findSession st.sessions wid with
          | none => (st, HandlerReply.err "watch session not found")
          | some ws =>
            let participants := touchParticipant wid user now st.participants
            let updated : Option WatchSessionState :=
              if action ≠ "state_sync" then
                some (_update_watch_session_state now ws action requested_position)
              else
                match requested_position with
                | some r =>
                  let server_pos := (_watch_session_state_payload now ws).position_seconds
                  if |server_pos - r| > 1 then
                    some (_update_watch_session_state now ws "seek" (some server_pos))
                  else none
                | none => none
            let sessions :=
              match updated with
              | some w => writeSession wid w st.sessions
              | none => st.sessions
            ({ participants := participants, sessions := sessions },
              HandlerReply.okBroadcast)

/-! ### Playback-session creation with rollback -/

/-- Embedding of a PlaybackSession row. -/
structure PlaybackSessionRec where
  id : Nat
  media_file_id : Nat
  user_session_id : String
  started_at : ℚ
  playback_mode : String
  chosen_profile : String
deriving DecidableEq

/-- Json reply of the create_playback_session route. -/
inductive CreateReply where
| badRequest (msg : String)
| notFound (msg : String)
| serverError (msg : String)
| created (playback_session_id : Nat) (mode profile : String)
deriving DecidableEq

/-- Deletion of the freshly created row, db_session.delete plus commit. -/
def removeById (recId : Nat) : List PlaybackSessionRec → List PlaybackSessionRec
| [] => []
| r :: rest => if r.id = recId then rest else r :: removeById recId rest

/-- The row inserted by create_playback_session before preparation runs. -/
def newPlaybackRecord (now : ℚ) (nextId : Nat) (media : MediaFile)
    (userId : Nat) : PlaybackSessionRec :=
  { id := nextId, media_file_id := media.id,
    user_session_id := toString userId, started_at := now,
    playback_mode := choose_mode media,
    chosen_profile := (choose_profile media).name }

/-- Embedding of the create_playback_session route body after
authentication.  mediaLookup is the result of the media query; nextId is
the primary key the insert allocates.  The record is committed before
prepare_session runs; a preparation failure deletes it again and surfaces
a server error, a success leaves it in place. -/
def create_playback_session (env : PrepareEnv) (now : ℚ)
    (db : List PlaybackSessionRec) (nextId : Nat)
    (mediaIdProvided : Bool) (mediaLookup : Option MediaFile)
    (userId : Nat) : List PlaybackSessionRec × CreateReply :=
  if ¬ mediaIdProvided then (db, CreateReply.badRequest "media_id is required")
  else
    match mediaLookup with
    | none => (db, CreateReply.notFound "media item not found")
    | some media =>
      let rec₀ := newPlaybackRecord now nextId media userId
      let db₁ := db ++ [rec₀]
      let prep := prepare_session env media nextId
      match prep.result with
      | Except.error e =>
        (removeById nextId db₁,
          CreateReply.serverError ("Unable to prepare playback artifacts: " ++ e))
      | Except.ok info =>
        (db₁, CreateReply.created nextId info.mode info.profile)

/-! ### Playlist rewriting

url_for belongs to the transport framework, which the spec treats as an
external collaborator; it is therefore a parameter of the rewriter, a
function from session id, asset path and token to the final url. -/

/-- Embedding of the directory computation playlist_path.rsplit with the
separator and one split, first element. -/
def rsplitDir (p : String) : String :=
  joinSlash (splitStr '/' p).dropLast

/-- Rewriting of one playlist line, the loop body of _rewrite_playlist. -/
def rewriteLine (urlFor : Nat → String → SignedToken → String)
    (svc : TokenService) (now : Nat) (playback_session_id : Nat)
    (base_dir : String) (line : String) : String :=
  let stripped := pyStrip line
  if stripped = "" ∨ startswith "#" stripped then line
  else if startswith "http://" stripped ∨ startswith "https://" stripped then line
  else
    let relative := if base_dir = "" then stripped else base_dir ++ "/" ++ stripped
    urlFor playback_session_id relative (sign_token svc now playback_session_id relative)

/-- Embedding of _rewrite_playlist. -/
def _rewrite_playlist (urlFor : Nat → String → SignedToken → String)
    (svc : TokenService) (now : Nat) (playback_session_id : Nat)
    (content : String) (playlist_path : String) : String :=
  let base_dir := if ¬ playlist_path.toList.contains '/' then "" else rsplitDir playlist_path
  let rewritten_lines :=
    (splitlines content).map (rewriteLine urlFor svc now playback_session_id base_dir)
  String.intercalate "\n" rewritten_lines ++ "\n"

/-- Modelled from the spec: a line passes through unchanged exactly when,
after stripping, it is blank, a comment, or already an absolute url. -/
def specPassthrough (line : String) : Bool :=
  pyStrip line = "" ∨ startswith "#" (pyStrip line) ∨
  startswith "http://" (pyStrip line) ∨ startswith "https://" (pyStrip line)

/-- Modelled from the spec: a relative reference is resolved against the
directory of the current playlist. -/
def specResolveRef (base_dir : String) (line : String) : String :=
  if base_dir = "" then pyStrip line else base_dir ++ "/" ++ pyStrip line

/-- Modelled from the spec: the directory of the current playlist, empty
for a playlist at the top of the session directory. -/
def specPlaylistDir (p : String) : String :=
  if p.toList.contains '/' then rsplitDir p else ""

/-! ### Concrete fixtures used by counterexamples and witnesses -/

/-- Concrete media file refuting claim C3 as stated: a height of zero. -/
def zeroHeightMedia : MediaFile :=
  { id := 1, file_path := "show.mp4", container := some "mp4",
    video_codec := some "h264", height := some 0 }

/-- C4 counterexample state: a paused session whose stored position has a
fraction finer than a millisecond. -/
def finePausedWS : WatchSessionState :=
  { id := 1, join_code := "ABC123", media_file_id := 4, is_playing := false,
    current_position_seconds := 1 / 10000, last_state_updated_at := 0 }

/-- C5 counterexample state: a playing session, stored position 10,
authoritative at instant 0. -/
def playingWS : WatchSessionState :=
  { id := 1, join_code := "JOIN01", media_file_id := 4, is_playing := true,
    current_position_seconds := 10, last_state_updated_at := 0 }

/-- Concrete token service used by witnesses: a trivial authentication
code and digest function. -/
def demoService : TokenService :=
  { mac := fun _ _ => 0, digestFn := fun s => s }

/-- C6 fixture: a paused session whose stored position 10.0004 lies a
fraction of a millisecond above 10. -/
def syncWS : WatchSessionState :=
  { id := 1, join_code := "SYNC01", media_file_id := 3, is_playing := false,
    current_position_seconds := 25001 / 2500, last_state_updated_at := 100 }

/-- C6 fixture: the join record of user 5 in watch session 1. -/
def syncParticipant : Participant :=
  { watch_session_id := 1, user_id := 5, joined_at := 0, last_seen_at := 0 }

/-- C6 fixture: one joined participant (user 5) and the session syncWS. -/
def syncState : ServerState :=
  { participants := [syncParticipant], sessions := [syncWS] }

/-- C7 fixture: a watch session nobody joined. -/
def lonelyWS : WatchSessionState :=
  { id := 1, join_code := "LONELY", media_file_id := 2, is_playing := false,
    current_position_seconds := 0, last_state_updated_at := 0 }

/-- C7 fixture: a server state with no join records at all. -/
def noJoinState : ServerState :=
  { participants := [], sessions := [lonelyWS] }

/-- C8 fixture: an environment whose transcoder invocation fails. -/
def failEnv : PrepareEnv :=
  { output_root := "/srv/playback", sourceExists := true, ffmpegSucceeds := false }

/-- C8 fixture: a 1080p matroska source, hence mode transcode. -/
def mkvMedia : MediaFile :=
  { id := 9, file_path := "movie.mkv", container := some "mkv",
    video_codec := some "h264", height := some 1080 }

/-- C8 fixture: a database already holding an unrelated playback session. -/
def preDb : List PlaybackSessionRec :=
  [{ id := 42, media_file_id := 2, user_session_id := "3", started_at := 0,
     playback_mode := "transcode", chosen_profile := "hls-720p" }]

/-- C10 fixture: an environment whose transcoder invocation succeeds. -/
def okEnv : PrepareEnv :=
  { output_root := "/srv/playback", sourceExists := true, ffmpegSucceeds := true }

/-- C10 fixture: a 480p quicktime source with accepted codec, hence mode
direct-play although its path is not a segmented playlist. -/
def movMedia : MediaFile :=
  { id := 3, file_path := "clip.mov", container := some "mov",
    video_codec := some "hevc", height := some 480 }

end MediaServer

example : MediaServer.normpath "../10/secret" = "../10/secret" := by decide

example : MediaServer.resolve_output_path "/srv/playback" 1 "../10/evil.ts" =
    some "/srv/playback/10/evil.ts" := by decide

example : MediaServer.resolve_output_path "/srv/playback" 1 "../../etc/passwd" = none := by
  decide

example : MediaServer.resolve_output_path "/srv/playback" 1 "hls-720p/index.m3u8" =
    some "/srv/playback/1/hls-720p/index.m3u8" := by decide

example :
    MediaServer.choose_mode
      { id := 1, file_path := "a.mp4", container := some "mp4",
        video_codec := some "h264", height := some 720 } = "direct-play" := by decide

example :
    MediaServer.choose_mode
      { id := 1, file_path := "a.mp4", container := some "mp4",
        video_codec := some "h264", height := some 0 } = "transcode" := by decide

namespace MediaServer

/-- The extrapolation expression shared by the payload reader and the
state-machine update equals the authoritative position of the spec once
the reading instant is not before the stored timestamp. -/
theorem extrapolation_eq_authoritative (now : ℚ) (ws : WatchSessionState)
    (h : ws.last_state_updated_at ≤ now) :
    ws.current_position_seconds +
      (if ws.is_playing then max 0 (now - ws.last_state_updated_at) else 0) =
    authoritativePosition now ws := by
  unfold authoritativePosition
  cases hb : ws.is_playing
  · simp
  · simp [max_eq_right (sub_nonneg.mpr h)]

/-- A character list is a prefix of itself extended by any suffix. -/
theorem isPrefixOf_self_append (a b : List Char) :
    List.isPrefixOf a (a ++ b) = true := by
  induction a with
  | nil => simp [List.isPrefixOf]
  | cons x xs ih => simp [List.isPrefixOf, ih]

/-- A string starts with itself extended by any suffix. -/
theorem startswith_self_append (a t : String) : startswith a (a ++ t) = true := by
  unfold startswith
  show List.isPrefixOf a.toList (a.toList ++ t.toList) = true
  exact isPrefixOf_self_append a.toList t.toList

/-- Supplementary positive half of C1: a request whose resolution is the
session directory extended by a remainder is accepted and returned as
exactly that resolved absolute path. -/
theorem resolve_output_path_inside (root : String) (sid : Nat) (rel rest : String)
    (hrest : resolveAbs (sessionBase root sid ++ "/" ++ lstripSlash (normpath rel)) =
      sessionBase root sid ++ "/" ++ rest) :
    resolve_output_path root sid rel = some (sessionBase root sid ++ "/" ++ rest) := by
  have hsw : startswith (sessionBase root sid)
      (sessionBase root sid ++ "/" ++ rest) = true := by
    rw [String.append_assoc]
    exact startswith_self_append _ _
  unfold resolve_output_path
  simp [hrest, hsw]

/-- C1: resolve_output_path must reject every relative path whose
resolution escapes the session output directory, but its guard is a raw
string-prefix comparison of the candidate against the base directory.  A
dot-dot path into a sibling directory whose name extends the session id
as a string passes the guard: for session 1 the request ../10/evil.ts
resolves to the directory of session 10, outside the directory of
session 1, yet some is returned.  The spec is the clear intent (the
mandatory path-traversal defense) and the missing separator in the
comparison is a slip of the code. -/
theorem resolve_output_path_sibling_escape_bug :
    resolve_output_path "/srv/playback" 1 "../10/evil.ts" =
      some "/srv/playback/10/evil.ts" ∧
    ¬ ("/srv/playback/10/evil.ts" = sessionBase "/srv/playback" 1 ∨
        strictlyInside (sessionBase "/srv/playback" 1) "/srv/playback/10/evil.ts") := by
  decide


/-- C3 counterexample: the claim states direct-play holds if and only if
the vertical resolution is at most 720 and container and codec are
accepted; a media file with recorded height 0, accepted container mp4 and
accepted codec h264 satisfies that right-hand side, is not a segmented
playlist, and yet choose_mode returns transcode, because the Python guard
tests the height for truthiness first and 0 is falsy. -/
theorem choose_mode_zero_height_counterexample :
    endswith ".m3u8" zeroHeightMedia.file_path = false ∧
    zeroHeightMedia.height = some 0 ∧
    (0 : ℤ) ≤ BASELINE_720P.max_height ∧
    (zeroHeightMedia.container = some "mp4" ∨ zeroHeightMedia.container = some "mov") ∧
    (zeroHeightMedia.video_codec = some "h264" ∨ zeroHeightMedia.video_codec = some "hevc") ∧
    choose_mode zeroHeightMedia ≠ "direct-play" := by
  decide

/-- C3 (amended): a source whose path ends in .m3u8 is always
direct-play; for every other media file, choose_mode returns direct-play
if and only if the vertical resolution is known, nonzero and at most the
baseline max height 720, the container is mp4 or mov, and the video codec
is h264 or hevc; the only other answer is transcode. -/
theorem choose_mode_direct_play_iff (m : MediaFile) :
    (endswith ".m3u8" m.file_path = true → choose_mode m = "direct-play") ∧
    (endswith ".m3u8" m.file_path = false →
      (choose_mode m = "direct-play" ↔
        (∃ h : ℤ, m.height = some h ∧ h ≠ 0 ∧ h ≤ BASELINE_720P.max_height) ∧
        (m.container = some "mp4" ∨ m.container = some "mov") ∧
        (m.video_codec = some "h264" ∨ m.video_codec = some "hevc"))) ∧
    (choose_mode m = "direct-play" ∨ choose_mode m = "transcode") := by
  unfold choose_mode
  refine ⟨fun h => by simp [h], fun h => ?_, ?_⟩
  · cases hh : m.height with
    | none => simp [h, hh]
    | some v =>
      by_cases hv : v ≠ 0 ∧ v ≤ BASELINE_720P.max_height
      · by_cases hcc : (m.container = some "mp4" ∨ m.container = some "mov") ∧
            (m.video_codec = some "h264" ∨ m.video_codec = some "hevc")
        · simp [h, hh, hv, hcc]
        · simp [h, hh, hv, hcc]
      · simp [h, hh, hv]
  · by_cases hp : endswith ".m3u8" m.file_path
    · simp [hp]
    · cases hh : m.height with
      | none => simp [hp, hh]
      | some v => by_cases hv : v ≠ 0 ∧ v ≤ BASELINE_720P.max_height <;>
          by_cases hcc : (m.container = some "mp4" ∨ m.container = some "mov") ∧
            (m.video_codec = some "h264" ∨ m.video_codec = some "hevc") <;>
          simp [hp, hh, hv, hcc]

/-- C2: a token signed at instant t for a session id and a path verifies
at t against the same id and path for any positive ttl; it no longer
verifies once the elapsed time d exceeds the ttl; it never verifies
against a different expected session id or a different expected path, at
any instant; and a token whose signature bytes differ from the
authentication code over its payload and timestamp never verifies.  The
statement holds for every authentication code function and digest
function, so in particular for the HMAC of itsdangerous and sha256. -/
theorem verify_sign_token_round_trip (svc : TokenService)
    (t now d ttl sid sid' : Nat) (path path' : String) (sig' : Nat)
    (httl : 0 < ttl) (hd : ttl < d) (hsid : sid' ≠ sid) (hpath : path' ≠ path)
    (hsig : sig' ≠ svc.mac (sign_token svc t sid path).payload t) :
    verify_token svc t (sign_token svc t sid path) ttl sid path = true ∧
    verify_token svc (t + d) (sign_token svc t sid path) ttl sid path = false ∧
    verify_token svc now (sign_token svc t sid path) ttl sid' path = false ∧
    verify_token svc now (sign_token svc t sid path) ttl sid path' = false ∧
    verify_token svc now
      { payload := (sign_token svc t sid path).payload, timestamp := t, sig := sig' }
      ttl sid path = false := by
  refine ⟨?_, ?_, ?_, ?_, ?_⟩
  · simp [verify_token, serializer_loads, sign_token]
  · simp only [verify_token, serializer_loads, sign_token, Nat.add_sub_cancel_left]
    simp [Nat.not_le.mpr hd]
  · by_cases hle : now - t ≤ ttl <;>
      simp [verify_token, serializer_loads, sign_token, hle, Ne.symm hsid]
  · by_cases hle : now - t ≤ ttl <;>
      simp [verify_token, serializer_loads, sign_token, hle, Ne.symm hpath]
  · simp only [sign_token] at hsig
    by_cases hle : now - t ≤ ttl <;>
      simp [verify_token, serializer_loads, sign_token, hle, hsig]

/-- C2 witness: the round-trip theorem applied at a concrete service (a
trivial code and digest function), instants 0 and 61, ttl 60, session id
7 against 8, path master.m3u8 against other.ts, and corrupted signature 1. -/
theorem verify_sign_token_round_trip_witness :
    verify_token demoService 0 (sign_token demoService 0 7 "master.m3u8") 60 7 "master.m3u8" = true ∧
    verify_token demoService (0 + 61) (sign_token demoService 0 7 "master.m3u8") 60 7 "master.m3u8" = false ∧
    verify_token demoService 5 (sign_token demoService 0 7 "master.m3u8") 60 8 "master.m3u8" = false ∧
    verify_token demoService 5 (sign_token demoService 0 7 "master.m3u8") 60 7 "other.ts" = false ∧
    verify_token demoService 5
      { payload := (sign_token demoService 0 7 "master.m3u8").payload, timestamp := 0, sig := 1 }
      60 7 "master.m3u8" = false :=
  verify_sign_token_round_trip demoService 0 5 61 60 7 8 "master.m3u8" "other.ts" 1
    (by decide) (by decide) (by decide) (by decide) (by decide)


/-- C4 counterexample: the claim states that reading a paused session at
any later instant yields exactly the stored position P; the payload
however carries round(position, 3), so a session paused at 0.0001 seconds
reads back as 0, not P. -/
theorem payload_position_rounding_counterexample :
    finePausedWS.is_playing = false ∧
    finePausedWS.last_state_updated_at ≤ 50 ∧
    (_watch_session_state_payload 50 finePausedWS).position_seconds ≠
      finePausedWS.current_position_seconds := by
  refine ⟨rfl, by norm_num [finePausedWS], ?_⟩
  norm_num [_watch_session_state_payload, finePausedWS, round3, roundHalfEven,
    ratFloor, Int.fdiv]

/-- C4 (amended): at any reading instant not before the authoritative
timestamp, the payload position is the authoritative position, stored
position plus elapsed time when playing and the stored position when
paused, rounded to the nearest millisecond. -/
theorem payload_position_extrapolation (now : ℚ) (ws : WatchSessionState)
    (h : ws.last_state_updated_at ≤ now) :
    (_watch_session_state_payload now ws).position_seconds =
      round3 (authoritativePosition now ws) := by
  unfold _watch_session_state_payload
  rw [extrapolation_eq_authoritative now ws h]

/-- C4 witness: the amended reading contract applied to a concrete
playing session, stored position 3 at instant 5, read at instant 7. -/
theorem payload_position_extrapolation_witness :
    (5 : ℚ) ≤ 7 ∧
    (_watch_session_state_payload 7
      { id := 1, join_code := "K7Q2ZD", media_file_id := 2, is_playing := true,
        current_position_seconds := 3, last_state_updated_at := 5 }).position_seconds =
      round3 (authoritativePosition 7
        { id := 1, join_code := "K7Q2ZD", media_file_id := 2, is_playing := true,
          current_position_seconds := 3, last_state_updated_at := 5 }) :=
  ⟨by norm_num,
    payload_position_extrapolation 7
      { id := 1, join_code := "K7Q2ZD", media_file_id := 2, is_playing := true,
        current_position_seconds := 3, last_state_updated_at := 5 } (by norm_num)⟩


/-- C5 counterexample: the claim states that every pause command stores
the extrapolated position at the moment of pause; but the handler honours
a client-supplied position on pause too, so a pause at instant 5 carrying
position 999 stores 999 while the extrapolated position is 15. -/
theorem pause_requested_position_counterexample :
    authoritativePosition 5 playingWS = 15 ∧
    (_update_watch_session_state 5 playingWS "pause" (some 999)).is_playing = false ∧
    (_update_watch_session_state 5 playingWS "pause" (some 999)).current_position_seconds ≠
      authoritativePosition 5 playingWS := by
  refine ⟨?_, rfl, ?_⟩ <;>
    norm_num [_update_watch_session_state, authoritativePosition, playingWS]

/-- C5 (amended): a pause command moves the session to the paused state
and resets the authoritative timestamp; it stores the extrapolated
position when the command carries no position, and the requested value
clamped to at least 0 when it does.  A seek command leaves the play or
pause state unchanged, overwrites the stored position with the requested
value clamped to at least 0, and resets the authoritative timestamp. -/
theorem update_watch_session_state_pause_seek (now r : ℚ) (ws : WatchSessionState)
    (h : ws.last_state_updated_at ≤ now) :
    (_update_watch_session_state now ws "pause" none).is_playing = false ∧
    (_update_watch_session_state now ws "pause" none).current_position_seconds =
      authoritativePosition now ws ∧
    (_update_watch_session_state now ws "pause" none).last_state_updated_at = now ∧
    (_update_watch_session_state now ws "pause" (some r)).is_playing = false ∧
    (_update_watch_session_state now ws "pause" (some r)).current_position_seconds = max 0 r ∧
    (_update_watch_session_state now ws "pause" (some r)).last_state_updated_at = now ∧
    (_update_watch_session_state now ws "seek" (some r)).is_playing = ws.is_playing ∧
    (_update_watch_session_state now ws "seek" (some r)).current_position_seconds = max 0 r ∧
    (_update_watch_session_state now ws "seek" (some r)).last_state_updated_at = now := by
  refine ⟨rfl, ?_, rfl, rfl, rfl, rfl, rfl, rfl, rfl⟩
  show ws.current_position_seconds +
      (if ws.is_playing then max 0 (now - ws.last_state_updated_at) else 0) =
    authoritativePosition now ws
  exact extrapolation_eq_authoritative now ws h

/-- C5 witness: the amended pause and seek contract applied to the
concrete playing session playingWS at instant 5 with requested seek
position -3 (clamped to 0). -/
theorem update_watch_session_state_pause_seek_witness :
    playingWS.last_state_updated_at ≤ 5 ∧
    ((_update_watch_session_state 5 playingWS "pause" none).is_playing = false ∧
      (_update_watch_session_state 5 playingWS "pause" none).current_position_seconds =
        authoritativePosition 5 playingWS ∧
      (_update_watch_session_state 5 playingWS "pause" none).last_state_updated_at = 5 ∧
      (_update_watch_session_state 5 playingWS "pause" (some (-3))).is_playing = false ∧
      (_update_watch_session_state 5 playingWS "pause" (some (-3))).current_position_seconds =
        max 0 (-3) ∧
      (_update_watch_session_state 5 playingWS "pause" (some (-3))).last_state_updated_at = 5 ∧
      (_update_watch_session_state 5 playingWS "seek" (some (-3))).is_playing =
        playingWS.is_playing ∧
      (_update_watch_session_state 5 playingWS "seek" (some (-3))).current_position_seconds =
        max 0 (-3) ∧
      (_update_watch_session_state 5 playingWS "seek" (some (-3))).last_state_updated_at = 5) :=
  ⟨by decide, update_watch_session_state_pause_seek 5 (-3) playingWS (by decide)⟩

/-- Evaluation of the handler on a state_sync report from a joined
participant of an existing session: the participant row is touched, the
reply is a broadcast, and the session row is rewritten by a correcting
seek to the payload position exactly when the report differs from the
payload position by more than one second. -/
theorem handler_state_sync_eval (now r : ℚ) (st : ServerState) (user wid : Nat)
    (p : Participant) (ws : WatchSessionState)
    (huser : user ≠ 0) (hwid : wid ≠ 0)
    (hp : findParticipant st.participants wid user = some p)
    (hs : findSession st.sessions wid = some ws) :
    _handle_playback_control now st (some user) "state_sync" (some wid) (some r) =
      ({ participants := touchParticipant wid user now st.participants,
         sessions :=
           if 1 < |(_watch_session_state_payload now ws).position_seconds - r| then
             writeSession wid
               (_update_watch_session_state now ws "seek"
                 (some (_watch_session_state_payload now ws).position_seconds))
               st.sessions
           else st.sessions },
        HandlerReply.okBroadcast) := by
  unfold _handle_playback_control _auth_required_socket
  by_cases hgap :
      1 < |(_watch_session_state_payload now ws).position_seconds - r| <;>
    simp [huser, hwid, hp, hs, hgap]

/-- C6 counterexample: the claim mandates a correcting seek whenever the
report differs from the server-authoritative extrapolated position by
more than one second; for the paused session syncWS at stored position
10.0004, a report of 9 differs from the authoritative position by 1.0004,
yet the handler compares against the payload position rounded to 10,
measures a difference of exactly 1, and mutates nothing. -/
theorem state_sync_tolerance_rounding_counterexample :
    1 < |authoritativePosition 100 syncWS - 9| ∧
    (_handle_playback_control 100 syncState (some 5) "state_sync"
        (some 1) (some 9)).1.sessions = syncState.sessions ∧
    (_handle_playback_control 100 syncState (some 5) "state_sync"
        (some 1) (some 9)).2 = HandlerReply.okBroadcast := by
  have hpos : authoritativePosition 100 syncWS - 9 = 2501 / 2500 := by
    norm_num [authoritativePosition, syncWS]
  have hpay : (_watch_session_state_payload 100 syncWS).position_seconds = 10 := by
    norm_num [_watch_session_state_payload, syncWS, round3, roundHalfEven,
      ratFloor, Int.fdiv]
  have heval := handler_state_sync_eval 100 9 syncState 5 1 syncParticipant
    syncWS (by decide) (by decide) rfl rfl
  refine ⟨?_, ?_, ?_⟩
  · rw [hpos, abs_of_pos (by norm_num)]
    norm_num
  · rw [heval, hpay]
    rw [if_neg (by norm_num)]
  · rw [heval]

/-- C6 (amended): for a state_sync report from a joined participant of an
existing watch session, the handler compares the report against its own
payload position, the authoritative extrapolated position rounded to the
nearest millisecond: when they differ by more than one second it applies
a correcting seek to that payload position and rebroadcasts, and when
they differ by at most one second the watch-session rows are left
unchanged (only the last-seen time of the participant is refreshed). -/
theorem state_sync_reconciliation (now r : ℚ) (st : ServerState) (user wid : Nat)
    (p : Participant) (ws : WatchSessionState)
    (huser : user ≠ 0) (hwid : wid ≠ 0)
    (hp : findParticipant st.participants wid user = some p)
    (hs : findSession st.sessions wid = some ws) :
    (_handle_playback_control now st (some user) "state_sync"
        (some wid) (some r)).1.sessions =
      (if 1 < |(_watch_session_state_payload now ws).position_seconds - r| then
        writeSession wid
          (_update_watch_session_state now ws "seek"
            (some (_watch_session_state_payload now ws).position_seconds))
          st.sessions
      else st.sessions) ∧
    (_handle_playback_control now st (some user) "state_sync"
        (some wid) (some r)).2 = HandlerReply.okBroadcast := by
  constructor
  · rw [handler_state_sync_eval now r st user wid p ws huser hwid hp hs]
  · rw [handler_state_sync_eval now r st user wid p ws huser hwid hp hs]

/-- C6 witness: the reconciliation contract applied to the concrete state
syncState, user 5, session 1 and report 9. -/
theorem state_sync_reconciliation_witness :
    (_handle_playback_control 100 syncState (some 5) "state_sync"
        (some 1) (some 9)).1.sessions =
      (if 1 < |(_watch_session_state_payload 100 syncWS).position_seconds - 9| then
        writeSession 1
          (_update_watch_session_state 100 syncWS "seek"
            (some (_watch_session_state_payload 100 syncWS).position_seconds))
          syncState.sessions
      else syncState.sessions) ∧
    (_handle_playback_control 100 syncState (some 5) "state_sync"
        (some 1) (some 9)).2 = HandlerReply.okBroadcast :=
  state_sync_reconciliation 100 9 syncState 5 1 syncParticipant
    syncWS (by decide) (by decide) rfl rfl

/-- C7: a play, pause, seek or state_sync command whose sender holds no
join record for the target watch session is answered with the
authorization error and the server state, watch sessions and participants
alike, is returned unchanged. -/
theorem unauthorized_control_rejected (now : ℚ) (st : ServerState)
    (pos : Option ℚ) (user wid : Nat) (action : String)
    (hact : action = "play" ∨ action = "pause" ∨ action = "seek" ∨
      action = "state_sync")
    (huser : user ≠ 0) (hwid : wid ≠ 0)
    (hnp : findParticipant st.participants wid user = none) :
    _handle_playback_control now st (some user) action (some wid) pos =
      (st, HandlerReply.err "join session before controlling playback") := by
  unfold _handle_playback_control _auth_required_socket
  simp [huser, hwid, hnp]

/-- C7 witness: the rejection applied to a play command from user 5, who
has no join record in noJoinState, targeting session 1. -/
theorem unauthorized_control_rejected_witness :
    _handle_playback_control 0 noJoinState (some 5) "play" (some 1) none =
      (noJoinState, HandlerReply.err "join session before controlling playback") :=
  unauthorized_control_rejected 0 noJoinState none 5 1 "play"
    (Or.inl rfl) (by decide) (by decide) rfl

/-- Removing the freshly appended record restores the database when no
earlier record carries its id. -/
theorem removeById_append (db : List PlaybackSessionRec)
    (r₀ : PlaybackSessionRec) (h : ∀ r ∈ db, r.id ≠ r₀.id) :
    removeById r₀.id (db ++ [r₀]) = db := by
  induction db with
  | nil => simp [removeById]
  | cons a tl ih =>
    have ha : a.id ≠ r₀.id := h a (by simp)
    simp only [List.cons_append, removeById, ha, if_neg]
    simp [ih (fun r hr => h r (by simp [hr]))]

/-- C8: once the media item is found, the creation route inserts the
playback-session record and runs artifact preparation; on a preparation
failure the record is deleted again, so a database holding no record with
the new id is returned exactly as it was, together with a server error
carrying the failure message; on a success the record persists and the
creation payload is returned. -/
theorem create_playback_session_rollback (env : PrepareEnv) (now : ℚ)
    (db : List PlaybackSessionRec) (nextId : Nat) (media : MediaFile)
    (userId : Nat) (hfresh : ∀ r ∈ db, r.id ≠ nextId) :
    create_playback_session env now db nextId true (some media) userId =
      match (prepare_session env media nextId).result with
      | Except.error e =>
        (db, CreateReply.serverError ("Unable to prepare playback artifacts: " ++ e))
      | Except.ok info =>
        (db ++ [newPlaybackRecord now nextId media userId],
          CreateReply.created nextId info.mode info.profile) := by
  unfold create_playback_session
  cases hres : (prepare_session env media nextId).result with
  | error e =>
    simp only [hres, not_true_eq_false, if_false, Bool.false_eq_true,
      ite_false, Prod.mk.injEq]
    exact ⟨removeById_append db (newPlaybackRecord now nextId media userId) hfresh, trivial⟩
  | ok info => simp [hres]

/-- C8 witness: the rollback contract applied to the concrete failing
environment failEnv, the transcode source mkvMedia, new id 1, and a
database already holding the unrelated record preDb. -/
theorem create_playback_session_rollback_witness :
    create_playback_session failEnv 0 preDb 1 true (some mkvMedia) 7 =
      match (prepare_session failEnv mkvMedia 1).result with
      | Except.error e =>
        (preDb, CreateReply.serverError ("Unable to prepare playback artifacts: " ++ e))
      | Except.ok info =>
        (preDb ++ [newPlaybackRecord 0 1 mkvMedia 7],
          CreateReply.created 1 info.mode info.profile) :=
  create_playback_session_rollback failEnv 0 preDb 1 mkvMedia 7 (by decide)

/-- C9: the playlist rewriter maps each input line independently: a line
that is blank, a comment, or already an absolute url after stripping is
passed through unchanged, and every other line is resolved against the
directory of the current playlist, signed, and replaced by the
token-bearing fetch url for the resolved reference. -/
theorem rewrite_playlist_line_characterization
    (urlFor : Nat → String → SignedToken → String) (svc : TokenService)
    (now sid : Nat) (content playlist_path : String) :
    _rewrite_playlist urlFor svc now sid content playlist_path =
      String.intercalate "\n"
        ((splitlines content).map (fun line =>
          if specPassthrough line then line
          else
            urlFor sid (specResolveRef (specPlaylistDir playlist_path) line)
              (sign_token svc now sid
                (specResolveRef (specPlaylistDir playlist_path) line)))) ++ "\n" := by
  have hbd : (if ¬ playlist_path.toList.contains '/' then ""
      else rsplitDir playlist_path) = specPlaylistDir playlist_path := by
    unfold specPlaylistDir
    by_cases hd : playlist_path.toList.contains '/' <;> simp [hd]
  have hline : rewriteLine urlFor svc now sid (specPlaylistDir playlist_path) =
      fun line =>
        if specPassthrough line then line
        else
          urlFor sid (specResolveRef (specPlaylistDir playlist_path) line)
            (sign_token svc now sid
              (specResolveRef (specPlaylistDir playlist_path) line)) := by
    funext line
    unfold rewriteLine specPassthrough specResolveRef
    by_cases h1 : pyStrip line = "" <;>
      by_cases h2 : startswith "#" (pyStrip line) = true <;>
      by_cases h3 : startswith "http://" (pyStrip line) = true <;>
      by_cases h4 : startswith "https://" (pyStrip line) = true <;>
      simp [h1, h2, h3, h4]
  unfold _rewrite_playlist
  rw [hbd]
  simp only [hline]

/-- C10: a media file whose chosen mode is direct-play but whose path
does not end in .m3u8 is nevertheless sent through the external
transcoder branch of prepare_session: ffmpeg is invoked, a per-profile
rendition playlist and a synthesized master playlist are produced, and
the returned dict still reports mode direct-play. -/
theorem prepare_session_direct_play_transcodes (env : PrepareEnv)
    (m : MediaFile) (sid : Nat)
    (hmode : choose_mode m = "direct-play")
    (hpath : endswith ".m3u8" m.file_path = false)
    (hffmpeg : env.ffmpegSucceeds = true) :
    (prepare_session env m sid).transcoderInvoked = true ∧
    (prepare_session env m sid).masterSynthesized = true ∧
    (prepare_session env m sid).renditionPlaylist =
      some (env.output_root ++ "/" ++ toString sid ++ "/" ++ "hls-720p" ++
        "/index.m3u8") ∧
    (prepare_session env m sid).result = Except.ok
      { mode := "direct-play", profile := "hls-720p",
        master_playlist := env.output_root ++ "/" ++ toString sid ++
          "/master.m3u8" } := by
  unfold prepare_session
  simp [hmode, hpath, hffmpeg, choose_profile, BASELINE_720P]

/-- C10 witness: the transcoding of a direct-play source applied to the
concrete 480p quicktime file movMedia in the environment okEnv, session 3. -/
theorem prepare_session_direct_play_transcodes_witness :
    (prepare_session okEnv movMedia 3).transcoderInvoked = true ∧
    (prepare_session okEnv movMedia 3).masterSynthesized = true ∧
    (prepare_session okEnv movMedia 3).renditionPlaylist =
      some (okEnv.output_root ++ "/" ++ toString 3 ++ "/" ++ "hls-720p" ++
        "/index.m3u8") ∧
    (prepare_session okEnv movMedia 3).result = Except.ok
      { mode := "direct-play", profile := "hls-720p",
        master_playlist := okEnv.output_root ++ "/" ++ toString 3 ++
          "/master.m3u8" } :=
  prepare_session_direct_play_transcodes okEnv movMedia 3
    (by decide) (by decide) rfl

end MediaServer

